import Mathlib

/-!
# Verification of the confirmed-native-extra deposit scan worker

A shallow embedding of `src/confirmed-native-extra.ts`: the worker that
re-checks deposit addresses of queued orders for missed native-asset sweep
transactions, computes a gas-inclusive settlement total and issues an
idempotent credit call per qualifying transaction.

Transaction feed records carry all numeric quantities as decimal digit
strings (the zod schema types every field as `string`; Etherscan returns
non-negative decimal integers for `value`, `timeStamp`, `gasPrice`, `gas`
and `gasUsed`).  Exact string arithmetic (the `ns` wrapper around
bignumber.js) and the 18-decimal display formatting
(`ethers.utils.formatEther`) are modelled over such digit strings.

JavaScript truthiness on the string-typed fields is modelled by comparison
with the empty string: a missing `to` or `gasPrice` surfaces as `""`.
-/

/-- Numeric value of a decimal digit character. -/
def digitVal (c : Char) : Nat := c.toNat - 48

/-- Fold a list of decimal digit characters into the number they denote,
left to right, starting from an accumulator. -/
def parseDigits : List Char → Nat → Nat
  | [], acc => acc
  | c :: cs, acc => parseDigits cs (acc * 10 + digitVal c)

/-- Parse a decimal digit string into the natural number it denotes.
Models how bignumber.js reads the feed's non-negative integer strings. -/
def parseDec (s : String) : Nat := parseDigits s.toList 0

/-- Decimal digit characters of a natural number, most significant first.
Fuel-based recursion (structural, so that concrete values reduce). -/
def decDigitsAux : Nat → Nat → List Char
  | 0, _ => []
  | fuel + 1, n =>
    if n < 10 then [Char.ofNat (48 + n)]
    else decDigitsAux fuel (n / 10) ++ [Char.ofNat (48 + n % 10)]

/-- Canonical decimal string of a natural number. -/
def toDecString (n : Nat) : String := ⟨decDigitsAux (n + 1) n⟩

/-- Model of JavaScript `String.prototype.toLowerCase` on the ASCII
addresses this worker compares. -/
def toLowerCase (s : String) : String := ⟨s.toList.map Char.toLower⟩

namespace ns

/-- Model of `ns.sum` from `@sideshift/shared`: exact decimal string
addition (bignumber.js, no binary floating point). -/
def sum (a b : String) : String := toDecString (parseDec a + parseDec b)

/-- Model of `ns.times` from `@sideshift/shared`: exact decimal string
multiplication (bignumber.js, no binary floating point). -/
def times (a b : String) : String := toDecString (parseDec a * parseDec b)

end ns

/-- Left-pad a digit list with `'0'` to the given width. -/
def padLeftZeros (k : Nat) (l : List Char) : List Char :=
  List.replicate (k - l.length) '0' ++ l

/-- Remove trailing `'0'` characters. -/
def dropTrailingZeros (l : List Char) : List Char :=
  (l.reverse.dropWhile (fun c => c == '0')).reverse

/-- Model of `ethers.utils.formatEther` on a non-negative base-unit decimal
string: divide by 10^18 and render with the trailing zeros of the
fractional part removed, keeping at least one fractional digit. -/
def formatEther (s : String) : String :=
  let n := parseDec s
  let whole := toDecString (n / 10 ^ 18)
  let fracDigits := padLeftZeros 18 (decDigitsAux (n % 10 ^ 18 + 1) (n % 10 ^ 18))
  let frac := dropTrailingZeros fracDigits
  whole ++ "." ++ (if frac = [] then "0" else ⟨frac⟩)

/-- A record of `accountTxListResultSchema`: every field is a string, as
the zod schema demands.  `from` and `to` are reserved words in Lean, hence
those fields are called `fromAddr` and `toAddr`; all other field names
match the source. -/
structure EtherscanTransaction where
  hash : String
  fromAddr : String
  toAddr : String
  value : String
  timeStamp : String
  gasPrice : String
  gas : String
  gasUsed : String
deriving Repr, DecidableEq

/-- The `total` of `scanTxId` (line 95):
`ns.sum(tx.value, ns.times(tx.gas, tx.gasPrice))`. -/
def settlementTotal (tx : EtherscanTransaction) : String :=
  ns.sum tx.value (ns.times tx.gas tx.gasPrice)

/-- The argument record of the `maybeInternalCreateDeposit` credit RPC
(lines 107-114): `{orderId, tx: {txid}, amount, uniqueId}`. -/
structure CreditCall where
  orderId : String
  txid : String
  amount : String
  uniqueId : String
deriving Repr, DecidableEq

/-- Modelled from the spec: `getEthereumNativeDepositUniqueId` is imported
from `./shared`, which is not among the provided sources; the spec (§3)
describes it as a deterministic function of the asset/method identifier
and the transaction hash. -/
def getEthereumNativeDepositUniqueId (nativeMethod : String) (hash : String) : String :=
  nativeMethod ++ ":" ++ hash

/-- An error thrown by the per-transaction scan.  The only throw site in
`scanTxId` is `new Error('Unsupported EIP-1559 sweep transaction')` on a
missing `gasPrice` (lines 91-93); the spec calls it `MissingFeeDataError`. -/
inductive ScanError where
  | errorMsg (msg : String)
deriving Repr, DecidableEq

/-- The top-level order record the handler reads (`db.getRepository(Order)`):
`createdAtMs` is `order.createdAt.getTime()` in milliseconds, and
`depositAddress` is `order.depositAddress?.address`. -/
structure OrderRecord where
  id : String
  createdAtMs : Nat
  depositAddress : Option String
deriving Repr, DecidableEq

/-- The payload of the `result` field of an Etherscan response: a string
(how the API reports application errors), a well-typed record array
(anything else fails the zod parse), or some other malformed shape. -/
inductive FeedResult where
  | str (s : String)
  | txs (l : List EtherscanTransaction)
  | malformed
deriving Repr, DecidableEq

/-- JavaScript `data.result.length` as used in the error guard: string
length, array length; reading `.length` off a malformed shape yields
`undefined`, and `undefined > 0` is false, modelled as length 0. -/
def feedResultLength : FeedResult → Nat
  | .str s => s.length
  | .txs l => l.length
  | .malformed => 0

/-- JavaScript template-literal stringification of `data.result` as spliced
into the thrown error message. -/
def resultText : FeedResult → String
  | .str s => s
  | .txs l => String.intercalate "," (l.map (fun _ => "[object Object]"))
  | .malformed => "[object Object]"

/-- The `{status, result}` body of an Etherscan `txlist` response. -/
structure FeedResponse where
  status : String
  result : FeedResult
deriving Repr, DecidableEq

/-- A failure of the transaction-feed fetch: a provider-reported error
(the thrown `Received error ... from Etherscan API`), a zod
response-shape validation failure, or an axios transport failure. -/
inductive FeedError where
  | apiError (msg : String)
  | validationError
  | transportError (msg : String)
deriving Repr, DecidableEq

/-- The environment the worker closure captures: the consolidation account
address `config.evmAccount`, the native method/asset identifier, the
ledger's reply to a credit RPC (`maybeInternalCreateDeposit` returns
whether the deposit was newly created), the order lookup by id, and the
outcome of the HTTP GET against Etherscan for an address (a parsed JSON
body, or a transport error). -/
structure ScanEnv where
  account : String
  nativeMethod : String
  ledger : CreditCall → Bool
  lookupOrder : String → Option OrderRecord
  fetchFeed : String → Except String FeedResponse

/-- The credit-call record `scanTxId` builds for a transaction it accepts
(lines 95-114): `amount` is `totalAsEther`, the `formatEther` rendering of
the base-unit total — not the base-unit total itself. -/
def mkCreditCall (env : ScanEnv) (orderId : String) (tx : EtherscanTransaction) : CreditCall :=
  { orderId := orderId
    txid := tx.hash
    amount := formatEther (settlementTotal tx)
    uniqueId := getEthereumNativeDepositUniqueId env.nativeMethod tx.hash }

/-- `scanTxId` (lines 61-122).  Returns the list of credit RPCs it issued
(empty or a singleton) together with its boolean result, or the error it
threw.  `!tx.toAddr` and `!tx.gasPrice` on the string-typed fields are
comparisons with the empty string. -/
def scanTxId (env : ScanEnv) (tx : EtherscanTransaction) (orderId : String) :
    Except ScanError (List CreditCall × Bool) :=
  if tx.toAddr = "" then .ok ([], false)
  else if toLowerCase tx.toAddr ≠ toLowerCase env.account then .ok ([], false)
  else if tx.gasPrice = "" then .error (.errorMsg "Unsupported EIP-1559 sweep transaction")
  else .ok ([mkCreditCall env orderId tx], env.ledger (mkCreditCall env orderId tx))

/-- The credit RPCs issued by one `scanTxId` call. -/
def scanCredits : Except ScanError (List CreditCall × Bool) → List CreditCall
  | .ok (calls, _) => calls
  | .error _ => []

/-- `getEtherScanTxListForAddress` (lines 134-142), applied to the parsed
response body: throw on `status === '0'` with a non-empty `result`,
otherwise run the zod parse `accountTxListResultSchema.parse`. -/
def getEtherScanTxListForAddress (data : FeedResponse) :
    Except FeedError (List EtherscanTransaction) :=
  if data.status = "0" ∧ 0 < feedResultLength data.result then
    .error (.apiError ("Received error " ++ resultText data.result ++ " from Etherscan API"))
  else
    match data.result with
    | .txs l => .ok l
    | .str _ => .error .validationError
    | .malformed => .error .validationError

/-- The full feed fetch for an address: an axios transport failure and a
`getEtherScanTxListForAddress` failure both surface as errors of the one
`try` block in the handler (lines 179-185). -/
def fetchTxList (env : ScanEnv) (addr : String) : Except FeedError (List EtherscanTransaction) :=
  match env.fetchFeed addr with
  | .error msg => .error (.transportError msg)
  | .ok data => getEtherScanTxListForAddress data

/-- The pre-truncation pipeline of the handler (lines 187-191): keep the
transactions with positive value, then `slice(0, 10)`. -/
def selectWindow (txs : List EtherscanTransaction) : List EtherscanTransaction :=
  (txs.filter (fun tx => decide (0 < parseDec tx.value))).take 10

/-- One iteration of the `pMap` mapper (lines 195-228): skip the
transaction when its timestamp (seconds, scaled to milliseconds) predates
the order, otherwise run `scanTxId`.  Yields the credit RPCs issued and
the errors thrown for this transaction. -/
def processTx (env : ScanEnv) (order : OrderRecord) (orderId : String)
    (tx : EtherscanTransaction) : List CreditCall × List ScanError :=
  if parseDec tx.timeStamp * 1000 < order.createdAtMs then ([], [])
  else
    match scanTxId env tx orderId with
    | .error e => ([], [e])
    | .ok (calls, _) => (calls, [])

/-- All credit RPCs issued across the `pMap` over the windowed list.
`pMap` is called without options, so its concurrency is unbounded and
every mapper is started; each transaction's calls happen regardless of
the other transactions' outcomes. -/
def creditsOf (env : ScanEnv) (order : OrderRecord) (orderId : String) :
    List EtherscanTransaction → List CreditCall
  | [] => []
  | tx :: rest => (processTx env order orderId tx).1 ++ creditsOf env order orderId rest

/-- All errors thrown across the `pMap` over the windowed list. -/
def errorsOf (env : ScanEnv) (order : OrderRecord) (orderId : String) :
    List EtherscanTransaction → List ScanError
  | [] => []
  | tx :: rest => (processTx env order orderId tx).2 ++ errorsOf env order orderId rest

/-- How the queue-task handler ended when it returned normally: an early
`return` on a missing order or deposit address, the `catch` branch of the
feed fetch (which logs and returns), or a full run of the `pMap`. -/
inductive TaskOutcome where
  | skippedNoOrder
  | skippedNoDepositAddress
  | caughtFeedError (e : FeedError)
  | completed
deriving Repr, DecidableEq

/-- The fate of one queue task: `returned` means the handler returned
normally, so the queue acknowledges the task as handled; `threw` means the
handler's promise rejected, so the task is reported failed to the queue. -/
inductive TaskResult where
  | returned (o : TaskOutcome)
  | threw (e : ScanError)
deriving Repr, DecidableEq

/-- `pMap` rejects with the first mapper error when there is one, and the
handler does not catch it; otherwise the handler returns normally. -/
def taskResultOf : List ScanError → TaskResult
  | [] => .returned .completed
  | e :: _ => .threw e

/-- The observable run of one task: the credit RPCs issued while it ran,
and how it ended. -/
structure TaskRun where
  credits : List CreditCall
  result : TaskResult
deriving Repr, DecidableEq

/-- The `queue.run` handler of `runScanByOrderId` (lines 161-228) for one
delivered order id. -/
def runOrderTask (env : ScanEnv) (orderId : String) : TaskRun :=
  match env.lookupOrder orderId with
  | none => ⟨[], .returned .skippedNoOrder⟩
  | some order =>
    match order.depositAddress with
    | none => ⟨[], .returned .skippedNoDepositAddress⟩
    | some addr =>
      match fetchTxList env addr with
      | .error e => ⟨[], .returned (.caughtFeedError e)⟩
      | .ok txs =>
        ⟨creditsOf env order orderId (selectWindow txs),
         taskResultOf (errorsOf env order orderId (selectWindow txs))⟩

/-- The spec's eligibility notion (§3 invariants): `to` present, equal to
the account address case-insensitively, strictly positive value, and
timestamp at or after order creation. -/
def eligibleTx (account : String) (createdAtMs : Nat) (tx : EtherscanTransaction) : Prop :=
  tx.toAddr ≠ "" ∧ toLowerCase tx.toAddr = toLowerCase account ∧
  0 < parseDec tx.value ∧ createdAtMs ≤ parseDec tx.timeStamp * 1000

instance (account : String) (createdAtMs : Nat) (tx : EtherscanTransaction) :
    Decidable (eligibleTx account createdAtMs tx) := by
  unfold eligibleTx; infer_instance

/-- Modelled from the spec (§4.2), for comparison with the code: apply all
four drop rules first, then truncate the survivors to the first 10. -/
def selectSpec (account : String) (createdAtMs : Nat)
    (txs : List EtherscanTransaction) : List EtherscanTransaction :=
  (txs.filter (fun tx => decide (eligibleTx account createdAtMs tx))).take 10

/-- The checks the handler and `scanTxId` apply after truncation: the
timestamp guard of the mapper and the two address guards of `scanTxId`. -/
def passesLateRules (env : ScanEnv) (order : OrderRecord) (tx : EtherscanTransaction) : Bool :=
  decide (order.createdAtMs ≤ parseDec tx.timeStamp * 1000) && !(tx.toAddr == "") &&
  (toLowerCase tx.toAddr == toLowerCase env.account)

/-! ## Concrete fixtures for witnesses and counterexamples -/

/-- An eligible sweep transaction: value 1000, gas limit 21000, gas price
10, sent at second 2000 to (a mixed-case spelling of) the account. -/
def txE1 : EtherscanTransaction :=
  { hash := "0xaaa", fromAddr := "0xdep", toAddr := "0xAbCd", value := "1000",
    timeStamp := "2000", gasPrice := "10", gas := "21000", gasUsed := "20000" }

def orderE1 : OrderRecord :=
  { id := "order-1", createdAtMs := 1500000, depositAddress := some "0xdep" }

def envE1 : ScanEnv :=
  { account := "0xabcd", nativeMethod := "ethereum",
    ledger := fun _ => true,
    lookupOrder := fun oid => if oid = "order-1" then some orderE1 else none,
    fetchFeed := fun _ => .ok { status := "1", result := .txs [txE1] } }

/-- A value-positive transaction to the account that predates the order
(second 100), with distinct hashes indexed by `i`. -/
def oldTx (i : Nat) : EtherscanTransaction :=
  { hash := "0xold" ++ toDecString i, fromAddr := "0xdep", toAddr := "0xacc", value := "5",
    timeStamp := "100", gasPrice := "10", gas := "21000", gasUsed := "21000" }

/-- A fully eligible transaction (second 2000, after order creation). -/
def txNew : EtherscanTransaction :=
  { hash := "0xnew", fromAddr := "0xdep", toAddr := "0xacc", value := "7",
    timeStamp := "2000", gasPrice := "10", gas := "21000", gasUsed := "21000" }

/-- Ten stale value-positive transactions followed by one eligible one, in
the feed's most-recent-first order as delivered. -/
def txsC2 : List EtherscanTransaction := (List.range 10).map oldTx ++ [txNew]

def orderC2 : OrderRecord :=
  { id := "o2", createdAtMs := 1000000, depositAddress := some "0xdep" }

def envC2 : ScanEnv :=
  { account := "0xacc", nativeMethod := "ethereum",
    ledger := fun _ => true,
    lookupOrder := fun oid => if oid = "o2" then some orderC2 else none,
    fetchFeed := fun _ => .ok { status := "1", result := .txs txsC2 } }

/-- An otherwise-eligible transaction whose `gasPrice` is missing (the
EIP-1559 case the worker does not support). -/
def txBadFee : EtherscanTransaction :=
  { hash := "0xbad", fromAddr := "0xdep", toAddr := "0xacc", value := "50",
    timeStamp := "2000", gasPrice := "", gas := "21000", gasUsed := "21000" }

/-- An eligible transaction listed after the failing one. -/
def txGoodFee : EtherscanTransaction :=
  { hash := "0xgood", fromAddr := "0xdep", toAddr := "0xacc", value := "60",
    timeStamp := "2100", gasPrice := "4", gas := "21000", gasUsed := "21000" }

def orderC3 : OrderRecord :=
  { id := "o3", createdAtMs := 1000000, depositAddress := some "0xdep" }

def envC3 : ScanEnv :=
  { account := "0xacc", nativeMethod := "ethereum",
    ledger := fun _ => true,
    lookupOrder := fun oid => if oid = "o3" then some orderC3 else none,
    fetchFeed := fun _ => .ok { status := "1", result := .txs [txBadFee, txGoodFee] } }

def orderC4 : OrderRecord :=
  { id := "o4", createdAtMs := 1000000, depositAddress := some "0xdep" }

/-- An environment whose feed reports an application error: the response
has `status = "0"` and a non-empty string `result`. -/
def envC4 : ScanEnv :=
  { account := "0xacc", nativeMethod := "ethereum",
    ledger := fun _ => true,
    lookupOrder := fun oid => if oid = "o4" then some orderC4 else none,
    fetchFeed := fun _ => .ok { status := "0", result := .str "Max rate limit reached" } }

/-- The spec's settlement example, with `gasUsed` deliberately different
from `gas` so the two operands are distinguishable. -/
def txC6 : EtherscanTransaction :=
  { hash := "0xc6", fromAddr := "0xdep", toAddr := "0xacc", value := "1000",
    timeStamp := "2000", gasPrice := "10", gas := "21000", gasUsed := "9999" }

/-- An eligible transaction, indexed by `i` for distinct hashes. -/
def goodTx (i : Nat) : EtherscanTransaction :=
  { hash := "0xg" ++ toDecString i, fromAddr := "0xdep", toAddr := "0xAcc", value := "5",
    timeStamp := "2000", gasPrice := "7", gas := "21000", gasUsed := "21000" }

/-- Ten eligible transactions. -/
def txsC8 : List EtherscanTransaction := (List.range 10).map goodTx

/-- A transaction to the account with `value = "0"` and fee data present. -/
def txC10 : EtherscanTransaction :=
  { hash := "0xzero", fromAddr := "0xdep", toAddr := "0xacc", value := "0",
    timeStamp := "2000", gasPrice := "10", gas := "21000", gasUsed := "21000" }

def orderC10 : OrderRecord :=
  { id := "o10", createdAtMs := 1000000, depositAddress := some "0xdep" }

def envC10 : ScanEnv :=
  { account := "0xacc", nativeMethod := "ethereum",
    ledger := fun _ => true,
    lookupOrder := fun oid => if oid = "o10" then some orderC10 else none,
    fetchFeed := fun _ => .ok { status := "1", result := .txs [txC10] } }

/-- A transaction to the account with zero value, newer than the order. -/
def txValZero : EtherscanTransaction :=
  { hash := "0xvz", fromAddr := "0xdep", toAddr := "0xacc", value := "0",
    timeStamp := "2000", gasPrice := "10", gas := "21000", gasUsed := "21000" }

/-- A value-positive, recent transaction to some other address. -/
def txWrongTo : EtherscanTransaction :=
  { hash := "0xwt", fromAddr := "0xdep", toAddr := "0xother", value := "9",
    timeStamp := "2000", gasPrice := "10", gas := "21000", gasUsed := "21000" }

/-- A mixed feed: a zero-value record, a stale record, a record to a
foreign address, and one fully eligible record. -/
def txsC2w : List EtherscanTransaction := [txValZero, oldTx 0, txWrongTo, txNew]

def orderC2w : OrderRecord :=
  { id := "o2w", createdAtMs := 1000000, depositAddress := some "0xdep" }

def envC2w : ScanEnv :=
  { account := "0xacc", nativeMethod := "ethereum",
    ledger := fun _ => true,
    lookupOrder := fun oid => if oid = "o2w" then some orderC2w else none,
    fetchFeed := fun _ => .ok { status := "1", result := .txs txsC2w } }

/-- An Etherscan response reporting an application error. -/
def respC9 : FeedResponse := { status := "0", result := .str "NOTOK" }

/-! ## Decimal arithmetic lemmas -/

theorem parseDigits_append (l1 l2 : List Char) (acc : Nat) :
    parseDigits (l1 ++ l2) acc = parseDigits l2 (parseDigits l1 acc) := by
  induction l1 generalizing acc with
  | nil => rfl
  | cons c cs ih => simp [parseDigits, ih]

theorem digitVal_char (n : Nat) (h : n < 10) :
    digitVal (Char.ofNat (48 + n)) = n := by
  interval_cases n <;> decide

theorem parseDigits_decDigitsAux (fuel : Nat) :
    ∀ n acc, n < fuel →
      parseDigits (decDigitsAux fuel n) acc =
        acc * 10 ^ (decDigitsAux fuel n).length + n := by
  induction fuel with
  | zero => intro n acc h; omega
  | succ fuel ih =>
    intro n acc h
    by_cases h10 : n < 10
    · simp [decDigitsAux, h10, parseDigits, digitVal_char n h10]
    · have hmod : n % 10 < 10 := Nat.mod_lt n (by omega)
      have hdiv : n / 10 < fuel := by
        have : n / 10 < n := Nat.div_lt_self (by omega) (by omega)
        omega
      rw [decDigitsAux, if_neg h10, parseDigits_append, ih (n / 10) acc hdiv]
      simp only [parseDigits, digitVal_char (n % 10) hmod, List.length_append,
        List.length_singleton]
      have hdm : 10 * (n / 10) + n % 10 = n := Nat.div_add_mod n 10
      calc (acc * 10 ^ (decDigitsAux fuel (n / 10)).length + n / 10) * 10 + n % 10
          = acc * (10 ^ (decDigitsAux fuel (n / 10)).length * 10)
              + (10 * (n / 10) + n % 10) := by ring
        _ = acc * 10 ^ ((decDigitsAux fuel (n / 10)).length + 1) + n := by
              rw [hdm, pow_succ]

theorem parseDec_toDecString (n : Nat) : parseDec (toDecString n) = n := by
  have h := parseDigits_decDigitsAux (n + 1) n 0 (Nat.lt_succ_self n)
  simpa [parseDec, toDecString, String.toList] using h

theorem ns_sum_spec (a b : String) : parseDec (ns.sum a b) = parseDec a + parseDec b := by
  rw [ns.sum, parseDec_toDecString]

theorem ns_times_spec (a b : String) : parseDec (ns.times a b) = parseDec a * parseDec b := by
  rw [ns.times, parseDec_toDecString]

theorem settlementTotal_eq (tx : EtherscanTransaction) :
    settlementTotal tx =
      toDecString (parseDec tx.value + parseDec tx.gas * parseDec tx.gasPrice) := by
  rw [settlementTotal, ns.sum, ns_times_spec]

/-! ## Per-transaction processing lemmas -/

theorem processTx_credits (env : ScanEnv) (order : OrderRecord) (orderId : String)
    (tx : EtherscanTransaction) :
    (processTx env order orderId tx).1 =
      if order.createdAtMs ≤ parseDec tx.timeStamp * 1000 ∧ tx.toAddr ≠ "" ∧
         toLowerCase tx.toAddr = toLowerCase env.account ∧ tx.gasPrice ≠ ""
      then [mkCreditCall env orderId tx] else [] := by
  rw [processTx, scanTxId]
  by_cases h1 : parseDec tx.timeStamp * 1000 < order.createdAtMs
  · rw [if_pos h1, if_neg]; omega
  · rw [if_neg h1]
    by_cases h2 : tx.toAddr = ""
    · simp [h2]
    · rw [if_neg h2]
      by_cases h3 : toLowerCase tx.toAddr = toLowerCase env.account
      · rw [if_neg (by simpa using h3)]
        by_cases h4 : tx.gasPrice = ""
        · simp [h4]
        · simp only [if_neg h4]
          rw [if_pos ⟨by omega, h2, h3, h4⟩]
      · rw [if_pos (by simpa using h3)]
        rw [if_neg (by tauto)]

theorem processTx_errors (env : ScanEnv) (order : OrderRecord) (orderId : String)
    (tx : EtherscanTransaction) :
    (processTx env order orderId tx).2 =
      if order.createdAtMs ≤ parseDec tx.timeStamp * 1000 ∧ tx.toAddr ≠ "" ∧
         toLowerCase tx.toAddr = toLowerCase env.account ∧ tx.gasPrice = ""
      then [ScanError.errorMsg "Unsupported EIP-1559 sweep transaction"] else [] := by
  rw [processTx, scanTxId]
  by_cases h1 : parseDec tx.timeStamp * 1000 < order.createdAtMs
  · rw [if_pos h1, if_neg]; omega
  · rw [if_neg h1]
    by_cases h2 : tx.toAddr = ""
    · simp [h2]
    · rw [if_neg h2]
      by_cases h3 : toLowerCase tx.toAddr = toLowerCase env.account
      · rw [if_neg (by simpa using h3)]
        by_cases h4 : tx.gasPrice = ""
        · simp only [if_pos h4]
          rw [if_pos ⟨by omega, h2, h3, h4⟩]
        · simp only [if_neg h4]
          rw [if_neg (by tauto)]
      · rw [if_pos (by simpa using h3)]
        rw [if_neg (by tauto)]

theorem passesLateRules_iff (env : ScanEnv) (order : OrderRecord) (tx : EtherscanTransaction) :
    passesLateRules env order tx = true ↔
      order.createdAtMs ≤ parseDec tx.timeStamp * 1000 ∧ tx.toAddr ≠ "" ∧
      toLowerCase tx.toAddr = toLowerCase env.account := by
  simp [passesLateRules, and_assoc]

theorem mem_creditsOf (env : ScanEnv) (order : OrderRecord) (orderId : String)
    (l : List EtherscanTransaction) (call : CreditCall)
    (h : call ∈ creditsOf env order orderId l) :
    ∃ tx, tx ∈ l ∧ call = mkCreditCall env orderId tx ∧
      order.createdAtMs ≤ parseDec tx.timeStamp * 1000 ∧ tx.toAddr ≠ "" ∧
      toLowerCase tx.toAddr = toLowerCase env.account := by
  induction l with
  | nil => cases h
  | cons tx rest ih =>
    rw [creditsOf, processTx_credits] at h
    by_cases hc : order.createdAtMs ≤ parseDec tx.timeStamp * 1000 ∧ tx.toAddr ≠ "" ∧
        toLowerCase tx.toAddr = toLowerCase env.account ∧ tx.gasPrice ≠ ""
    · rw [if_pos hc] at h
      rcases List.mem_append.mp h with hl | hr
      · exact ⟨tx, List.mem_cons_self tx rest, List.mem_singleton.mp hl, hc.1, hc.2.1, hc.2.2.1⟩
      · obtain ⟨tx', htx', rest'⟩ := ih hr
        exact ⟨tx', List.mem_cons_of_mem tx htx', rest'⟩
    · rw [if_neg hc, List.nil_append] at h
      obtain ⟨tx', htx', rest'⟩ := ih h
      exact ⟨tx', List.mem_cons_of_mem tx htx', rest'⟩

theorem creditsOf_eq_filter_map (env : ScanEnv) (order : OrderRecord) (orderId : String)
    (l : List EtherscanTransaction) (hgas : ∀ tx ∈ l, tx.gasPrice ≠ "") :
    creditsOf env order orderId l =
      (l.filter (passesLateRules env order)).map (mkCreditCall env orderId) := by
  induction l with
  | nil => rfl
  | cons tx rest ih =>
    have hg : tx.gasPrice ≠ "" := hgas tx (List.mem_cons_self tx rest)
    have hrest : ∀ tx' ∈ rest, tx'.gasPrice ≠ "" :=
      fun tx' h' => hgas tx' (List.mem_cons_of_mem tx h')
    rw [creditsOf, processTx_credits, ih hrest]
    by_cases hc : order.createdAtMs ≤ parseDec tx.timeStamp * 1000 ∧ tx.toAddr ≠ "" ∧
        toLowerCase tx.toAddr = toLowerCase env.account
    · rw [if_pos ⟨hc.1, hc.2.1, hc.2.2, hg⟩,
        List.filter_cons_of_pos ((passesLateRules_iff env order tx).mpr hc), List.map_cons,
        List.singleton_append]
    · rw [if_neg (by tauto),
        List.filter_cons_of_neg (by simpa using fun h => hc ((passesLateRules_iff env order tx).mp h)),
        List.nil_append]

theorem mem_errorsOf_msg (env : ScanEnv) (order : OrderRecord) (orderId : String)
    (l : List EtherscanTransaction) (e : ScanError)
    (h : e ∈ errorsOf env order orderId l) :
    e = .errorMsg "Unsupported EIP-1559 sweep transaction" := by
  induction l with
  | nil => cases h
  | cons tx rest ih =>
    rw [errorsOf, processTx_errors] at h
    by_cases hc : order.createdAtMs ≤ parseDec tx.timeStamp * 1000 ∧ tx.toAddr ≠ "" ∧
        toLowerCase tx.toAddr = toLowerCase env.account ∧ tx.gasPrice = ""
    · rw [if_pos hc] at h
      rcases List.mem_append.mp h with hl | hr
      · exact List.mem_singleton.mp hl
      · exact ih hr
    · rw [if_neg hc, List.nil_append] at h
      exact ih h

theorem errorsOf_ne_nil (env : ScanEnv) (order : OrderRecord) (orderId : String)
    (l : List EtherscanTransaction) (tx : EtherscanTransaction) (htx : tx ∈ l)
    (hts : order.createdAtMs ≤ parseDec tx.timeStamp * 1000) (hto : tx.toAddr ≠ "")
    (hacct : toLowerCase tx.toAddr = toLowerCase env.account) (hgp : tx.gasPrice = "") :
    errorsOf env order orderId l ≠ [] := by
  induction l with
  | nil => cases htx
  | cons tx' rest ih =>
    rw [errorsOf]
    rcases List.mem_cons.mp htx with heq | hmem
    · subst heq
      rw [processTx_errors, if_pos ⟨hts, hto, hacct, hgp⟩]
      simp
    · intro hnil
      rcases List.append_eq_nil.mp hnil with ⟨_, h2⟩
      exact ih hmem h2

/-! ## Task-level lemmas -/

theorem runOrderTask_eq (env : ScanEnv) (orderId : String) (order : OrderRecord)
    (addr : String) (txs : List EtherscanTransaction)
    (hord : env.lookupOrder orderId = some order)
    (haddr : order.depositAddress = some addr)
    (hfeed : fetchTxList env addr = .ok txs) :
    runOrderTask env orderId =
      ⟨creditsOf env order orderId (selectWindow txs),
       taskResultOf (errorsOf env order orderId (selectWindow txs))⟩ := by
  simp only [runOrderTask, hord, haddr, hfeed]

theorem runOrderTask_feedError (env : ScanEnv) (orderId : String) (order : OrderRecord)
    (addr : String) (e : FeedError)
    (hord : env.lookupOrder orderId = some order)
    (haddr : order.depositAddress = some addr)
    (hfeed : fetchTxList env addr = .error e) :
    runOrderTask env orderId = ⟨[], .returned (.caughtFeedError e)⟩ := by
  simp only [runOrderTask, hord, haddr, hfeed]

/-! ## Claim theorems -/

/-- Claim C1, counterexample: for the concrete qualifying transaction
`txE1` (value 1000, gas 21000, gasPrice 10) the base-unit total is
"211000", yet the amount field of the credit call `scanTxId` issues is the
display-scaled 18-decimal string "0.000000000000211" — the base-unit total
is not what is passed to the credit call. -/
theorem credit_amount_counterexample :
    settlementTotal txE1 = "211000" ∧
    (scanCredits (scanTxId envE1 txE1 "order-1")).map CreditCall.amount =
      ["0.000000000000211"] ∧
    ("0.000000000000211" : String) ≠ "211000" := by
  refine ⟨by decide, by decide, by decide⟩

/-- Claim C1, amended: for every qualifying transaction the amount passed
to the credit call is the 18-decimal ether-formatted rendering
(`formatEther`) of the authoritative base-unit total
`value + gas * gasPrice`, not the base-unit total string itself. -/
theorem credit_amount_is_formatted_ether
    (env : ScanEnv) (tx : EtherscanTransaction) (orderId : String)
    (hto : tx.toAddr ≠ "") (hacct : toLowerCase tx.toAddr = toLowerCase env.account)
    (hgas : tx.gasPrice ≠ "") :
    scanTxId env tx orderId =
      .ok ([mkCreditCall env orderId tx], env.ledger (mkCreditCall env orderId tx)) ∧
    (mkCreditCall env orderId tx).amount = formatEther (settlementTotal tx) := by
  refine ⟨?_, rfl⟩
  rw [scanTxId, if_neg hto, if_neg (fun hne => hne hacct), if_neg hgas]

/-- Claim C1, witness: the amended theorem at the concrete transaction
`txE1` and environment `envE1`. -/
theorem credit_amount_is_formatted_ether_witness :
    txE1.toAddr ≠ "" ∧ toLowerCase txE1.toAddr = toLowerCase envE1.account ∧
    txE1.gasPrice ≠ "" ∧
    (scanTxId envE1 txE1 "order-1" =
        .ok ([mkCreditCall envE1 "order-1" txE1],
             envE1.ledger (mkCreditCall envE1 "order-1" txE1)) ∧
      (mkCreditCall envE1 "order-1" txE1).amount = formatEther (settlementTotal txE1)) :=
  ⟨by decide, by decide, by decide,
   credit_amount_is_formatted_ether envE1 txE1 "order-1" (by decide) (by decide) (by decide)⟩

/-- Claim C4, counterexample: with a feed that reports an application
error (`status = "0"`, non-empty `result`), the handler catches the thrown
feed error and returns normally, so the task is acknowledged as handled
(`TaskResult.returned`) instead of being reported failed to the queue. -/
theorem feed_error_acknowledged_counterexample :
    runOrderTask envC4 "o4" =
      ⟨[], .returned (.caughtFeedError
        (.apiError "Received error Max rate limit reached from Etherscan API"))⟩ := by
  decide

/-- Claim C4, amended: whenever the transaction-feed fetch fails — with a
provider-reported error, a transport failure or a validation failure — the
`catch` block logs the error and returns, so the order task ends in a
normally-returned (acknowledged) state and is never reported failed to the
queue; no queue-level redelivery is triggered by feed errors. -/
theorem feed_error_caught_and_acknowledged
    (env : ScanEnv) (orderId : String) (order : OrderRecord) (addr : String) (e : FeedError)
    (hord : env.lookupOrder orderId = some order)
    (haddr : order.depositAddress = some addr)
    (hfeed : fetchTxList env addr = .error e) :
    runOrderTask env orderId = ⟨[], .returned (.caughtFeedError e)⟩ :=
  runOrderTask_feedError env orderId order addr e hord haddr hfeed

/-- Claim C4, witness: the amended theorem at the concrete environment
`envC4`, whose feed reports "Max rate limit reached". -/
theorem feed_error_caught_and_acknowledged_witness :
    envC4.lookupOrder "o4" = some orderC4 ∧
    orderC4.depositAddress = some "0xdep" ∧
    fetchTxList envC4 "0xdep" =
      .error (.apiError "Received error Max rate limit reached from Etherscan API") ∧
    runOrderTask envC4 "o4" =
      ⟨[], .returned (.caughtFeedError
        (.apiError "Received error Max rate limit reached from Etherscan API"))⟩ :=
  ⟨rfl, rfl, rfl,
   feed_error_caught_and_acknowledged envC4 "o4" orderC4 "0xdep"
     (.apiError "Received error Max rate limit reached from Etherscan API") rfl rfl rfl⟩

/-- Claim C6: the settlement total is the exact decimal rendering of
`value + gas * gasPrice` — the gas-quantity operand is the `gas` (limit)
field, not `gasUsed` — and on the spec's example (value 1000, gas 21000,
gasPrice 10, with `gasUsed` deliberately different) it is "211000". -/
theorem settlement_total_exact :
    (∀ tx : EtherscanTransaction,
        settlementTotal tx =
          toDecString (parseDec tx.value + parseDec tx.gas * parseDec tx.gasPrice) ∧
        parseDec (settlementTotal tx) =
          parseDec tx.value + parseDec tx.gas * parseDec tx.gasPrice) ∧
    settlementTotal txC6 = "211000" := by
  refine ⟨fun tx => ⟨settlementTotal_eq tx, ?_⟩, by decide⟩
  rw [settlementTotal_eq, parseDec_toDecString]

/-- Claim C7: on an otherwise-eligible transaction whose `gasPrice` is
missing (empty), `scanTxId` throws the unsupported-fee-model error (the
spec's `MissingFeeDataError`) and issues no credit call for it. -/
theorem missing_gas_price_no_credit
    (env : ScanEnv) (tx : EtherscanTransaction) (orderId : String)
    (hto : tx.toAddr ≠ "") (hacct : toLowerCase tx.toAddr = toLowerCase env.account)
    (hgp : tx.gasPrice = "") :
    scanTxId env tx orderId = .error (.errorMsg "Unsupported EIP-1559 sweep transaction") ∧
    scanCredits (scanTxId env tx orderId) = [] := by
  have h : scanTxId env tx orderId =
      .error (.errorMsg "Unsupported EIP-1559 sweep transaction") := by
    rw [scanTxId, if_neg hto, if_neg (fun hne => hne hacct), if_pos hgp]
  exact ⟨h, by rw [h]; rfl⟩

/-- Claim C7, witness: the theorem at the concrete transaction `txBadFee`
(to the account, positive value, empty `gasPrice`). -/
theorem missing_gas_price_no_credit_witness :
    txBadFee.toAddr ≠ "" ∧ toLowerCase txBadFee.toAddr = toLowerCase envC3.account ∧
    txBadFee.gasPrice = "" ∧
    (scanTxId envC3 txBadFee "o3" =
        .error (.errorMsg "Unsupported EIP-1559 sweep transaction") ∧
      scanCredits (scanTxId envC3 txBadFee "o3") = []) :=
  ⟨by decide, by decide, rfl,
   missing_gas_price_no_credit envC3 txBadFee "o3" (by decide) (by decide) rfl⟩

/-- Claim C9: a response with `status = "0"` and a non-empty `result`
payload makes the fetch fail with a feed error whose message carries the
payload, instead of returning a transaction list. -/
theorem feed_status_zero_error
    (data : FeedResponse) (hstatus : data.status = "0")
    (hlen : 0 < feedResultLength data.result) :
    getEtherScanTxListForAddress data =
      .error (.apiError ("Received error " ++ resultText data.result ++
        " from Etherscan API")) := by
  rw [getEtherScanTxListForAddress, if_pos ⟨hstatus, hlen⟩]

/-- Claim C9, witness: the theorem at the concrete response `respC9`
(status "0", result "NOTOK"). -/
theorem feed_status_zero_error_witness :
    respC9.status = "0" ∧ 0 < feedResultLength respC9.result ∧
    getEtherScanTxListForAddress respC9 =
      .error (.apiError ("Received error " ++ resultText respC9.result ++
        " from Etherscan API")) :=
  ⟨rfl, by decide, feed_status_zero_error respC9 rfl (by decide)⟩

/-- Claim C10: `scanTxId` called directly on `txC10` — a transaction to
the account with `value = "0"` and fee data present — still issues a
credit call, whose amount is the ether rendering of the settlement total
`gas * gasPrice`; the same transaction fed through `runOrderTask` is
dropped by the orchestrator's positive-value pre-filter, which is the only
place the strictly-positive-value rule is enforced. -/
theorem zero_value_credited_by_scan_tx_id :
    txC10.value = "0" ∧
    settlementTotal txC10 = ns.times txC10.gas txC10.gasPrice ∧
    scanTxId envC10 txC10 "o10" = .ok ([mkCreditCall envC10 "o10" txC10], true) ∧
    (mkCreditCall envC10 "o10" txC10).amount =
      formatEther (ns.times txC10.gas txC10.gasPrice) ∧
    (runOrderTask envC10 "o10").credits = [] := by
  refine ⟨rfl, by decide, rfl, by decide, by decide⟩

/-- Claim C2, counterexample: in the feed `txsC2` (ten stale value-positive
transactions followed by one fully eligible one) the first-10 survivors of
all four drop rules are exactly `[txNew]`, and `txNew` would produce a
credit call if it were scanned; yet the run issues no credit at all,
because the code truncates to 10 right after the value rule and `txNew` is
the 11th value-positive record. -/
theorem rules_before_truncation_counterexample :
    selectSpec "0xacc" 1000000 txsC2 = [txNew] ∧
    scanCredits (scanTxId envC2 txNew "o2") = [mkCreditCall envC2 "o2" txNew] ∧
    (runOrderTask envC2 "o2").credits = [] := by
  refine ⟨by decide, by decide, by decide⟩

/-- Claim C2, amended: only the strictly-positive-value rule is applied
before truncation; the to-absent, address-equality and timestamp rules are
applied after it, so the transactions credited are exactly those among the
first 10 value-positive transactions (in feed order) that also pass the
timestamp and address rules. -/
theorem late_rules_after_truncation
    (env : ScanEnv) (orderId : String) (order : OrderRecord) (addr : String)
    (txs : List EtherscanTransaction)
    (hord : env.lookupOrder orderId = some order)
    (haddr : order.depositAddress = some addr)
    (hfeed : fetchTxList env addr = .ok txs)
    (hgas : ∀ tx ∈ selectWindow txs, tx.gasPrice ≠ "") :
    (runOrderTask env orderId).credits =
      ((selectWindow txs).filter (passesLateRules env order)).map (mkCreditCall env orderId) := by
  rw [runOrderTask_eq env orderId order addr txs hord haddr hfeed]
  exact creditsOf_eq_filter_map env order orderId (selectWindow txs) hgas

/-- Claim C2, witness: the amended theorem at the mixed feed `txsC2w`
(zero-value, stale, foreign-address and eligible records). -/
theorem late_rules_after_truncation_witness :
    envC2w.lookupOrder "o2w" = some orderC2w ∧
    orderC2w.depositAddress = some "0xdep" ∧
    fetchTxList envC2w "0xdep" = .ok txsC2w ∧
    (∀ tx ∈ selectWindow txsC2w, tx.gasPrice ≠ "") ∧
    (runOrderTask envC2w "o2w").credits =
      ((selectWindow txsC2w).filter (passesLateRules envC2w orderC2w)).map
        (mkCreditCall envC2w "o2w") :=
  ⟨rfl, rfl, rfl, by decide,
   late_rules_after_truncation envC2w "o2w" orderC2w "0xdep" txsC2w rfl rfl rfl (by decide)⟩

/-- Claim C3, counterexample: with the feed `[txBadFee, txGoodFee]` the
second candidate is still credited (processing of the others is not
prevented), but the missing-fee error of the first candidate propagates
out of the processing loop: the task throws instead of completing after
all candidates have been attempted. -/
theorem settlement_failure_counterexample :
    runOrderTask envC3 "o3" =
      ⟨[mkCreditCall envC3 "o3" txGoodFee],
       .threw (.errorMsg "Unsupported EIP-1559 sweep transaction")⟩ := by
  decide

/-- Claim C3, amended: every surviving candidate is attempted
independently, but a settlement failure (missing `gasPrice`) on any
candidate is not contained: the handler's promise rejects with that error,
so the order task is reported failed instead of completing. -/
theorem settlement_failure_fails_task
    (env : ScanEnv) (orderId : String) (order : OrderRecord) (addr : String)
    (txs : List EtherscanTransaction)
    (hord : env.lookupOrder orderId = some order)
    (haddr : order.depositAddress = some addr)
    (hfeed : fetchTxList env addr = .ok txs)
    (tx : EtherscanTransaction) (htx : tx ∈ selectWindow txs)
    (hts : order.createdAtMs ≤ parseDec tx.timeStamp * 1000) (hto : tx.toAddr ≠ "")
    (hacct : toLowerCase tx.toAddr = toLowerCase env.account) (hgp : tx.gasPrice = "") :
    (runOrderTask env orderId).result =
      .threw (.errorMsg "Unsupported EIP-1559 sweep transaction") := by
  rw [runOrderTask_eq env orderId order addr txs hord haddr hfeed]
  have hne := errorsOf_ne_nil env order orderId (selectWindow txs) tx htx hts hto hacct hgp
  show taskResultOf (errorsOf env order orderId (selectWindow txs)) = _
  cases herr : errorsOf env order orderId (selectWindow txs) with
  | nil => exact absurd herr hne
  | cons e rest =>
    have he : e = .errorMsg "Unsupported EIP-1559 sweep transaction" :=
      mem_errorsOf_msg env order orderId (selectWindow txs) e
        (by rw [herr]; exact List.mem_cons_self e rest)
    rw [taskResultOf, he]

/-- Claim C3, witness: the amended theorem at the concrete environment
`envC3` and failing candidate `txBadFee`. -/
theorem settlement_failure_fails_task_witness :
    envC3.lookupOrder "o3" = some orderC3 ∧
    orderC3.depositAddress = some "0xdep" ∧
    fetchTxList envC3 "0xdep" = .ok [txBadFee, txGoodFee] ∧
    txBadFee ∈ selectWindow [txBadFee, txGoodFee] ∧
    orderC3.createdAtMs ≤ parseDec txBadFee.timeStamp * 1000 ∧
    txBadFee.toAddr ≠ "" ∧
    toLowerCase txBadFee.toAddr = toLowerCase envC3.account ∧
    txBadFee.gasPrice = "" ∧
    (runOrderTask envC3 "o3").result =
      .threw (.errorMsg "Unsupported EIP-1559 sweep transaction") :=
  ⟨rfl, rfl, rfl, by decide, by decide, by decide, by decide, rfl,
   settlement_failure_fails_task envC3 "o3" orderC3 "0xdep" [txBadFee, txGoodFee]
     rfl rfl rfl txBadFee (by decide) (by decide) (by decide) (by decide) rfl⟩

/-- Claim C5: every credit call issued by an order task corresponds to a
fetched transaction whose `to` is present and equals the account address
case-insensitively, whose value is strictly positive and whose timestamp
is at or after the order's creation time. -/
theorem credit_only_for_eligible_tx
    (env : ScanEnv) (orderId : String) (order : OrderRecord) (addr : String)
    (txs : List EtherscanTransaction)
    (hord : env.lookupOrder orderId = some order)
    (haddr : order.depositAddress = some addr)
    (hfeed : fetchTxList env addr = .ok txs) :
    ∀ call ∈ (runOrderTask env orderId).credits,
      ∃ tx, tx ∈ txs ∧ call.txid = tx.hash ∧ tx.toAddr ≠ "" ∧
        toLowerCase tx.toAddr = toLowerCase env.account ∧
        0 < parseDec tx.value ∧
        order.createdAtMs ≤ parseDec tx.timeStamp * 1000 := by
  intro call hcall
  rw [runOrderTask_eq env orderId order addr txs hord haddr hfeed] at hcall
  obtain ⟨tx, htxmem, hcalleq, hts, hto, hacct⟩ :=
    mem_creditsOf env order orderId (selectWindow txs) call hcall
  have h1 : tx ∈ txs.filter (fun tx => decide (0 < parseDec tx.value)) :=
    List.take_subset _ _ (by simpa [selectWindow] using htxmem)
  have h2 := List.mem_filter.mp h1
  exact ⟨tx, h2.1, by rw [hcalleq]; rfl, hto, hacct, by simpa using h2.2, hts⟩

/-- Claim C5, witness: the theorem at the concrete environment `envE1`,
whose feed holds the single eligible transaction `txE1`. -/
theorem credit_only_for_eligible_tx_witness :
    envE1.lookupOrder "order-1" = some orderE1 ∧
    orderE1.depositAddress = some "0xdep" ∧
    fetchTxList envE1 "0xdep" = .ok [txE1] ∧
    ∀ call ∈ (runOrderTask envE1 "order-1").credits,
      ∃ tx, tx ∈ [txE1] ∧ call.txid = tx.hash ∧ tx.toAddr ≠ "" ∧
        toLowerCase tx.toAddr = toLowerCase envE1.account ∧
        0 < parseDec tx.value ∧
        orderE1.createdAtMs ≤ parseDec tx.timeStamp * 1000 :=
  ⟨rfl, rfl, rfl,
   credit_only_for_eligible_tx envE1 "order-1" orderE1 "0xdep" [txE1] rfl rfl rfl⟩

/-- Claim C8: the windowed list never holds more than 10 transactions, and
on a feed whose records are all eligible and number at least 10 it is
exactly the first 10 in input order — no re-sorting. -/
theorem window_bounded_first_ten :
    (∀ txs : List EtherscanTransaction, (selectWindow txs).length ≤ 10) ∧
    (∀ (account : String) (createdAtMs : Nat) (txs : List EtherscanTransaction),
        (∀ tx ∈ txs, eligibleTx account createdAtMs tx) → 10 ≤ txs.length →
        selectWindow txs = txs.take 10 ∧ (selectWindow txs).length = 10) := by
  constructor
  · intro txs
    simp only [selectWindow, List.length_take]
    omega
  · intro account createdAtMs txs hel hlen
    have hf : txs.filter (fun tx => decide (0 < parseDec tx.value)) = txs :=
      List.filter_eq_self.mpr (fun tx htx => by simpa using (hel tx htx).2.2.1)
    refine ⟨by rw [selectWindow, hf], ?_⟩
    rw [selectWindow, hf]
    simp only [List.length_take]
    omega

/-- Claim C8, witness: the second component of the theorem at the concrete
list `txsC8` of ten eligible transactions. -/
theorem window_bounded_first_ten_witness :
    (∀ tx ∈ txsC8, eligibleTx "0xacc" 1500 tx) ∧ 10 ≤ txsC8.length ∧
    selectWindow txsC8 = txsC8.take 10 ∧ (selectWindow txsC8).length = 10 :=
  ⟨by decide, by decide,
   (window_bounded_first_ten.2 "0xacc" 1500 txsC8 (by decide) (by decide)).1,
   (window_bounded_first_ten.2 "0xacc" 1500 txsC8 (by decide) (by decide)).2⟩
